import Mathlib

/-!
Verification of the authentication subsystem of the ai-cal-track backend:
a shallow embedding of `app/core/security.py`, `app/core/config.py` and
`app/services/auth_service.py` in Lean 4, with theorems settling the
frozen behavioural claims about registration, login, lockout and the
token lifecycle.

Times are modelled as integer Unix timestamps (seconds).  `datetime.utcnow()`
becomes an explicit `now : Int` argument.  Bcrypt is modelled as an injective
salted pairing: `verify_password p h` succeeds exactly when `p` equals the
plaintext that was hashed, which is the behavioural contract the service
code relies on.  A JWT is modelled as its payload together with the secret
it was signed with; signature verification succeeds exactly when the
verifying secret equals the signing secret, and `jwt.decode` additionally
rejects expired tokens, as python-jose does by default.
-/

namespace CalTrack

/-- `app/core/config.py` `Settings.SECRET_KEY` (default value). -/
def SECRET_KEY : String := "your-super-secret-key-change-in-production"

/-- `app/core/config.py` `Settings.ACCESS_TOKEN_EXPIRE_MINUTES = 30`. -/
def ACCESS_TOKEN_EXPIRE_MINUTES : Int := 30

/-- `app/core/config.py` `Settings.REFRESH_TOKEN_EXPIRE_DAYS = 7`. -/
def REFRESH_TOKEN_EXPIRE_DAYS : Int := 7

/-- A bcrypt digest, modelled as the hashed plaintext together with the
random salt drawn at hashing time (`passlib` `CryptContext.hash`). -/
structure Digest where
  plaintext : String
  salt : Nat
  deriving Repr, DecidableEq

/-- `security.get_password_hash`: salted one-way hash of `password`. -/
def get_password_hash (password : String) (salt : Nat) : Digest :=
  ⟨password, salt⟩

/-- `security.verify_password`: constant-time check of `plain_password`
against `hashed_password`; true exactly when the plaintext matches. -/
def verify_password (plain_password : String) (hashed_password : Digest) : Bool :=
  plain_password == hashed_password.plaintext

/-- The JWT payload dict `{"sub": ..., "exp": ..., "type": ..., "iat": ...}`
built by `create_access_token` / `create_refresh_token`.  `sub` is the user
id (the code stores `str(subject)`; the `str`/`int` round trip is kept
implicit and `sub` is the numeric subject). -/
structure JwtPayload where
  sub : Nat
  exp : Int
  tokType : String
  iat : Int
  deriving Repr, DecidableEq

/-- A signed JWT: payload plus the signing secret.  Verifying with the same
secret recovers the payload; any other secret fails the signature check. -/
structure Jwt where
  payload : JwtPayload
  secret : String
  deriving Repr, DecidableEq

/-- `jose.jwt.encode(to_encode, secret, algorithm)`. -/
def jwt_encode (payload : JwtPayload) (secret : String) : Jwt :=
  ⟨payload, secret⟩

/-- `security.create_access_token(subject)` with the default expiry:
`exp = now + ACCESS_TOKEN_EXPIRE_MINUTES`, `type = "access"`. -/
def create_access_token (subject : Nat) (now : Int) : Jwt :=
  jwt_encode ⟨subject, now + ACCESS_TOKEN_EXPIRE_MINUTES * 60, "access", now⟩ SECRET_KEY

/-- `security.create_refresh_token(subject)`:
`exp = now + REFRESH_TOKEN_EXPIRE_DAYS days`, `type = "refresh"`. -/
def create_refresh_token (subject : Nat) (now : Int) : Jwt :=
  jwt_encode ⟨subject, now + REFRESH_TOKEN_EXPIRE_DAYS * 86400, "refresh", now⟩ SECRET_KEY

/-- `security.decode_token`: `jose.jwt.decode` under `SECRET_KEY`; returns
the payload, or `none` on a bad signature or an expired token (python-jose
raises `ExpiredSignatureError` when `exp < now`), both caught as `JWTError`. -/
def decode_token (token : Jwt) (now : Int) : Option JwtPayload :=
  if token.secret == SECRET_KEY ∧ token.payload.exp ≥ now then
    some token.payload
  else
    none

/-- `security.verify_token(token, token_type)`: decode, check the embedded
`type` against the expected one, and return the subject; `none` on any
failure. -/
def verify_token (token : Jwt) (tokenType : String) (now : Int) : Option Nat :=
  match decode_token token now with
  | none => none
  | some payload =>
    if payload.tokType == tokenType then some payload.sub else none

/-- `security.validate_password_strength`: returns `(is_valid, message)`;
checks length ≥ 8, then an uppercase letter, a lowercase letter, a digit,
and a character from the fixed special set, in that order. -/
def special_chars : List Char :=
  "!@#$%^&*()_+-=[]\x7b\x7d|;:,.<>?".data

def validate_password_strength (password : String) : Bool × String :=
  let cs := password.data
  if cs.length < 8 then
    (false, "Password must be at least 8 characters long")
  else if !(cs.any Char.isUpper) then
    (false, "Password must contain at least one uppercase letter")
  else if !(cs.any Char.isLower) then
    (false, "Password must contain at least one lowercase letter")
  else if !(cs.any Char.isDigit) then
    (false, "Password must contain at least one digit")
  else if !(cs.any (fun c => special_chars.contains c)) then
    (false, "Password must contain at least one special character")
  else
    (true, "Password is strong")

/-- `app/models/user.py` `User`: the auth-relevant columns of the `users`
table. -/
structure User where
  id : Nat
  email : String
  hashed_password : Digest
  is_active : Bool
  failed_login_attempts : Nat
  locked_until : Option Int
  last_login : Option Int
  deriving Repr, DecidableEq

/-- `app/models/user.py` `UserProfile`: the columns `register_user` sets. -/
structure UserProfile where
  user_id : Nat
  onboarding_completed : Bool
  onboarding_step : Nat
  deriving Repr, DecidableEq

/-- `app/models/user.py` `UserGoals`: `register_user` creates it with only
`user_id`, all other columns defaulted. -/
structure UserGoals where
  user_id : Nat
  deriving Repr, DecidableEq

/-- The committed relational store visible to other sessions: the `users`,
`user_profiles` and `user_goals` tables. -/
structure Store where
  users : List User
  profiles : List UserProfile
  goals : List UserGoals
  deriving Repr, DecidableEq

/-- `db.query(User).filter(User.email == email).first()`. -/
def findByEmail (users : List User) (email : String) : Option User :=
  users.find? (fun u => u.email == email)

/-- `db.query(User).filter(User.id == uid).first()`. -/
def findById (users : List User) (uid : Nat) : Option User :=
  users.find? (fun u => u.id == uid)

/-- Committing a mutation of an ORM-tracked row: the row with the same
primary key is replaced. -/
def updateUser (users : List User) (u : User) : List User :=
  users.map (fun v => if v.id == u.id then u else v)

/-- `schemas/common.py` `TokenResponse`. -/
structure TokenResponse where
  access_token : Jwt
  refresh_token : Jwt
  token_type : String
  expires_in : Int
  deriving Repr, DecidableEq

/-- `AuthService.create_tokens(user_id)`. -/
def create_tokens (user_id : Nat) (now : Int) : TokenResponse :=
  { access_token := create_access_token user_id now
    refresh_token := create_refresh_token user_id now
    token_type := "bearer"
    expires_in := ACCESS_TOKEN_EXPIRE_MINUTES * 60 }

/-- Outcome of `AuthService.authenticate_user`: the `(user, error_message)`
pair the service returns, together with the committed `users` table after
the call (the service commits its counter/lock mutations itself). -/
structure AuthOutcome where
  user : Option User
  error : Option String
  users : List User
  deriving Repr, DecidableEq

/-- The lock test `user.locked_until and user.locked_until > datetime.utcnow()`
(the spec's `LockoutPolicy.is_locked(now)`). -/
def is_locked (user : User) (now : Int) : Bool :=
  (user.locked_until.map (fun t => decide (t > now))).getD false

/-- `AuthService.authenticate_user(data)` at clock reading `now`:
lookup by email; unknown email → `"Invalid email or password"`;
`locked_until > now` → locked message; inactive → deactivated message;
wrong password → increment `failed_login_attempts`, lock for 15 minutes
once the count reaches 5, commit, and return the same invalid-credentials
message; correct password → reset the counter, clear the lock, stamp
`last_login`, commit. -/
def authenticate_user (users : List User) (email password : String)
    (now : Int) : AuthOutcome :=
  match findByEmail users email with
  | none => ⟨none, some "Invalid email or password", users⟩
  | some user =>
    if is_locked user now then
      ⟨none, some "Account is temporarily locked. Please try again later.", users⟩
    else if !user.is_active then
      ⟨none, some "Account is deactivated", users⟩
    else if !(verify_password password user.hashed_password) then
      let attempts := user.failed_login_attempts + 1
      let locked :=
        if attempts ≥ 5 then some (now + 15 * 60) else user.locked_until
      let u2 := { user with failed_login_attempts := attempts,
                            locked_until := locked }
      ⟨none, some "Invalid email or password", updateUser users u2⟩
    else
      let u2 := { user with failed_login_attempts := 0,
                            locked_until := none,
                            last_login := some now }
      ⟨some u2, none, updateUser users u2⟩

/-- `AuthService.refresh_access_token(refresh_token)`: verify as type
`refresh`; on success look the user up by id and, when the user exists and
is active, mint a fresh pair; `none` on every failure. -/
def refresh_access_token (users : List User) (token : Jwt)
    (now : Int) : Option TokenResponse :=
  match verify_token token "refresh" now with
  | none => none
  | some uid =>
    match findById users uid with
    | none => none
    | some user =>
      if !user.is_active then none
      else some (create_tokens uid now)

/-- `AuthService.change_password(user, current_password, new_password)`:
wrong current password or weak new password returns failure without
touching the row; otherwise the new hash is stored and committed.  Returns
`(success, message, user row after the call)`. -/
def change_password (user : User) (current_password new_password : String)
    (salt : Nat) : Bool × String × User :=
  if !(verify_password current_password user.hashed_password) then
    (false, "Current password is incorrect", user)
  else
    let (is_valid, message) := validate_password_strength new_password
    if !is_valid then
      (false, message, user)
    else
      (true, "Password changed successfully",
        { user with hashed_password := get_password_hash new_password salt })

/-- The persistence calls inside `register_user`'s `try` block at which an
exception may be raised (`db.flush`, the two `db.add`s, `db.commit`). -/
inductive RegStep where
  | flushUser
  | addProfile
  | addGoals
  | commitAll
  deriving Repr, DecidableEq

/-- A SQLAlchemy session: the committed store shared with other sessions,
plus rows added but not yet committed.  `db.add`/`db.flush` stage rows;
only `db.commit` publishes them; `db.rollback` discards them. -/
structure DbSession where
  committed : Store
  pendingUsers : List User
  pendingProfiles : List UserProfile
  pendingGoals : List UserGoals
  deriving Repr, DecidableEq

/-- `db.rollback()`: discard every pending row, keep the committed store. -/
def DbSession.rollback (s : DbSession) : DbSession :=
  ⟨s.committed, [], [], []⟩

/-- `db.commit()`: atomically publish every pending row. -/
def DbSession.commitAll (s : DbSession) : DbSession :=
  ⟨⟨s.committed.users ++ s.pendingUsers,
    s.committed.profiles ++ s.pendingProfiles,
    s.committed.goals ++ s.pendingGoals⟩, [], [], []⟩

/-- The `User(...)` row `register_user` constructs (id assigned at flush). -/
def newUserRow (email password : String) (salt newId : Nat) : User :=
  ⟨newId, email, get_password_hash password salt, true, 0, none, none⟩

/-- The `UserProfile(...)` row `register_user` constructs. -/
def newProfileRow (newId : Nat) : UserProfile :=
  ⟨newId, false, 0⟩

/-- The `UserGoals(...)` row `register_user` constructs. -/
def newGoalsRow (newId : Nat) : UserGoals :=
  ⟨newId⟩

/-- `AuthService.register_user(data)` over committed store `db`, with a
fault oracle `failAt` naming the persistence call (if any) that raises.
Duplicate email and weak password return early; otherwise the user,
profile and goals rows are staged and committed together; an exception at
any step rolls the session back and reports a generic failure.  Returns
`(user, error_message, session after the call)`. -/
def register_user (db : Store) (email password : String)
    (salt newId : Nat) (failAt : Option RegStep) :
    Option User × Option String × DbSession :=
  let s0 : DbSession := ⟨db, [], [], []⟩
  match findByEmail db.users email with
  | some _ => (none, some "Email already registered", s0)
  | none =>
    let (is_valid, message) := validate_password_strength password
    if !is_valid then
      (none, some message, s0)
    else
      let user := newUserRow email password salt newId
      let s1 := { s0 with pendingUsers := s0.pendingUsers ++ [user] }
      if failAt = some RegStep.flushUser then
        (none, some "Registration failed. Please try again.", s1.rollback)
      else
        let s2 := { s1 with
          pendingProfiles := s1.pendingProfiles ++ [newProfileRow newId] }
        if failAt = some RegStep.addProfile then
          (none, some "Registration failed. Please try again.", s2.rollback)
        else
          let s3 := { s2 with
            pendingGoals := s2.pendingGoals ++ [newGoalsRow newId] }
          if failAt = some RegStep.addGoals then
            (none, some "Registration failed. Please try again.", s3.rollback)
          else if failAt = some RegStep.commitAll then
            (none, some "Registration failed. Please try again.", s3.rollback)
          else
            (some user, none, s3.commitAll)

/-! ## Theorems settling the claims -/

/-- C7: for every subject, `create_tokens` mints an access token expiring
exactly 30 minutes (1800 s) after issuance and a refresh token expiring
exactly 7 days (604800 s) after issuance, both carrying the same subject
with disjoint token types, and the returned pair has
`token_type = "bearer"` and `expires_in = 1800` seconds. -/
theorem create_tokens_pair_shape (user_id : Nat) (now : Int) :
    (create_tokens user_id now).access_token.payload.exp = now + 1800 ∧
    (create_tokens user_id now).refresh_token.payload.exp = now + 604800 ∧
    (create_tokens user_id now).access_token.payload.sub = user_id ∧
    (create_tokens user_id now).refresh_token.payload.sub = user_id ∧
    (create_tokens user_id now).access_token.payload.tokType = "access" ∧
    (create_tokens user_id now).refresh_token.payload.tokType = "refresh" ∧
    (create_tokens user_id now).token_type = "bearer" ∧
    (create_tokens user_id now).expires_in = 1800 := by
  refine ⟨?_, ?_, rfl, rfl, rfl, rfl, rfl, rfl⟩ <;>
    simp [create_tokens, create_access_token, create_refresh_token,
      jwt_encode, ACCESS_TOKEN_EXPIRE_MINUTES, REFRESH_TOKEN_EXPIRE_DAYS]

/-- C3: a codec-issued token whose embedded type is `refresh` is rejected
(no subject returned) by `verify_token (_, "access")`, and an `access`
token is rejected by `verify_token (_, "refresh")`, at every verification
time — expired or not. -/
theorem verify_token_type_mismatch (subject : Nat) (iat now : Int) :
    verify_token (create_refresh_token subject iat) "access" now = none ∧
    verify_token (create_access_token subject iat) "refresh" now = none := by
  constructor <;>
    · simp only [verify_token, decode_token, create_refresh_token,
        create_access_token, jwt_encode]
      split
      · rfl
      · rename_i payload heq
        split at heq
        · cases heq
          simp
        · cases heq

/-- C4: decoding the encoding of any claims payload under the same signing
secret, while the claims are unexpired, yields exactly the original
claims. -/
theorem decode_encode_roundtrip (claims : JwtPayload) (now : Int)
    (h : now < claims.exp) :
    decode_token (jwt_encode claims SECRET_KEY) now = some claims := by
  simp only [decode_token, jwt_encode]
  rw [if_pos]
  exact ⟨by simp, le_of_lt h⟩

/-- Witness for C4 at concrete claims `{sub 7, exp 100, "access", iat 0}`
and `now = 3`. -/
theorem decode_encode_roundtrip_witness :
    decode_token (jwt_encode ⟨7, 100, "access", 0⟩ SECRET_KEY) 3 =
      some ⟨7, 100, "access", 0⟩ :=
  decode_encode_roundtrip ⟨7, 100, "access", 0⟩ 3 (by norm_num)

/-- The validator accepts exactly the passwords meeting all five character
class requirements. -/
lemma validate_password_strength_true_iff (p : String) :
    (validate_password_strength p).1 = true ↔
      (8 ≤ p.data.length ∧ p.data.any Char.isUpper = true ∧
       p.data.any Char.isLower = true ∧ p.data.any Char.isDigit = true ∧
       p.data.any (fun c => special_chars.contains c) = true) := by
  simp only [validate_password_strength]
  split_ifs with h1 h2 h3 h4 h5 <;> simp_all

/-- C8: with a fresh email and no injected persistence fault, `register_user`
succeeds exactly when the password has length ≥ 8, an uppercase letter, a
lowercase letter, a digit, and a symbol from the fixed special set, and on
a weak password it returns no user and the validator's message; in
particular registering `"Weak1"` fails with the weak-password message and
registering `"Str0ng!pass"` succeeds. -/
theorem register_weak_password_policy (db : Store) (email password : String)
    (salt newId : Nat) (hfresh : findByEmail db.users email = none) :
    ((register_user db email password salt newId none).1.isSome = true ↔
      (8 ≤ password.data.length ∧ password.data.any Char.isUpper = true ∧
       password.data.any Char.isLower = true ∧
       password.data.any Char.isDigit = true ∧
       password.data.any (fun c => special_chars.contains c) = true)) ∧
    ((validate_password_strength password).1 = false →
      (register_user db email password salt newId none).1 = none ∧
      (register_user db email password salt newId none).2.1 =
        some (validate_password_strength password).2) ∧
    (register_user ⟨[], [], []⟩ "a@x.com" "Weak1" 0 1 none).1 = none ∧
    (register_user ⟨[], [], []⟩ "a@x.com" "Weak1" 0 1 none).2.1 =
      some "Password must be at least 8 characters long" ∧
    (register_user ⟨[], [], []⟩ "a@x.com" "Str0ng!pass" 0 1 none).2.1 = none ∧
    (register_user ⟨[], [], []⟩ "a@x.com" "Str0ng!pass" 0 1 none).1.isSome
      = true := by
  refine ⟨?_, ?_, by decide, by decide, by decide, by decide⟩
  · rw [← validate_password_strength_true_iff]
    rcases hv : validate_password_strength password with ⟨b, m⟩
    cases b <;> simp [register_user, hfresh, hv]
  · intro hweak
    rcases hv : validate_password_strength password with ⟨b, m⟩
    rw [hv] at hweak
    cases hweak
    simp [register_user, hfresh, hv]

/-- Witness for C8: the policy theorem instantiated at the empty store and
password `"Weak1"`. -/
theorem register_weak_password_policy_witness :
    (register_user ⟨[], [], []⟩ "a@x.com" "Weak1" 0 1 none).1 = none :=
  ((register_weak_password_policy ⟨[], [], []⟩ "a@x.com" "Weak1" 0 1
    (by decide)).2.1 (by decide)).1

/-- C5: `register_user` is atomic — for every starting store, input and
fault point, either it returns no user and the committed store is exactly
the starting store (nothing published, no orphaned account), or it returns
the new user with no error and the committed store gained the user row,
its profile row and its goals row in the single commit. -/
theorem register_user_atomic (db : Store) (email password : String)
    (salt newId : Nat) (failAt : Option RegStep) :
    ((register_user db email password salt newId failAt).1 = none ∧
     (register_user db email password salt newId failAt).2.2.committed = db) ∨
    ((register_user db email password salt newId failAt).1 =
       some (newUserRow email password salt newId) ∧
     (register_user db email password salt newId failAt).2.1 = none ∧
     (register_user db email password salt newId failAt).2.2.committed.users =
       db.users ++ [newUserRow email password salt newId] ∧
     (register_user db email password salt newId failAt).2.2.committed.profiles =
       db.profiles ++ [newProfileRow newId] ∧
     (register_user db email password salt newId failAt).2.2.committed.goals =
       db.goals ++ [newGoalsRow newId]) := by
  simp only [register_user]
  rcases findByEmail db.users email with _ | u
  · rcases hv : validate_password_strength password with ⟨b, m⟩
    cases b
    · left
      simp
    · simp only [Bool.not_true, Bool.false_eq_true, if_false]
      split_ifs <;>
        simp [DbSession.rollback, DbSession.commitAll]
  · left
    simp

/-- A concrete existing, active, unlocked account used to instantiate the
hypotheses of the quantified theorems. -/
def aliceUser : User :=
  ⟨1, "real@x.com", get_password_hash "Secret1!" 0, true, 0, none, none⟩

/-- C2: for every store and every password, authenticating with an email
that matches no stored user returns no user and exactly the same error
message as authenticating an existing, active, unlocked user with a wrong
password — the caller cannot tell the two apart. -/
theorem authenticate_uniform_error (users : List User)
    (unknownEmail knownEmail pwAny wrongPw : String) (u : User) (now : Int)
    (hU : findByEmail users unknownEmail = none)
    (hK : findByEmail users knownEmail = some u)
    (hactive : u.is_active = true)
    (hunlocked : is_locked u now = false)
    (hwrong : verify_password wrongPw u.hashed_password = false) :
    (authenticate_user users unknownEmail pwAny now).user = none ∧
    (authenticate_user users knownEmail wrongPw now).user = none ∧
    (authenticate_user users unknownEmail pwAny now).error =
      (authenticate_user users knownEmail wrongPw now).error := by
  simp [authenticate_user, hU, hK, hunlocked, hactive, hwrong]

/-- Witness for C2: unknown `nobody@x.com` versus `aliceUser` with a wrong
password, at `now = 0`. -/
theorem authenticate_uniform_error_witness :
    (authenticate_user [aliceUser] "nobody@x.com" "anything" 0).error =
      (authenticate_user [aliceUser] "real@x.com" "wrongpass" 0).error :=
  (authenticate_uniform_error [aliceUser] "nobody@x.com" "real@x.com"
    "anything" "wrongpass" aliceUser 0 (by decide) (by decide) (by decide)
    (by decide) (by decide)).2.2

/-- C9: a failed `change_password` — wrong current password or weak new
password — leaves `hashed_password`, `failed_login_attempts` and
`locked_until` all unchanged; in particular it never increments the
failed-attempt counter and never locks. -/
theorem change_password_failure_frame (user : User)
    (current_password new_password : String) (salt : Nat)
    (h : (change_password user current_password new_password salt).1 = false) :
    (change_password user current_password new_password salt).2.2.hashed_password
      = user.hashed_password ∧
    (change_password user current_password new_password salt).2.2.failed_login_attempts
      = user.failed_login_attempts ∧
    (change_password user current_password new_password salt).2.2.locked_until
      = user.locked_until := by
  have hframe :
      (change_password user current_password new_password salt).2.2 = user := by
    rcases hv : validate_password_strength new_password with ⟨b, m⟩
    by_cases hc : verify_password current_password user.hashed_password
    · cases b
      · simp [change_password, hc, hv]
      · exfalso
        simp [change_password, hc, hv] at h
    · simp [change_password, hc]
  rw [hframe]
  exact ⟨rfl, rfl, rfl⟩

/-- Witness for C9: `aliceUser` with a wrong current password. -/
theorem change_password_failure_frame_witness :
    (change_password aliceUser "bad" "New1!pass" 0).2.2.hashed_password
      = aliceUser.hashed_password :=
  (change_password_failure_frame aliceUser "bad" "New1!pass" 0 (by decide)).1

/-- A concrete account whose counter already reached 5 and whose lock has
expired by `now = 200`. -/
def lockedUser : User :=
  ⟨3, "locked@x.com", get_password_hash "Secret1!" 0, true, 5, some 100, none⟩

/-- C10: an active user whose `failed_login_attempts` is already ≥ 5 and
whose `locked_until` has passed is lazily unlocked, so one further
wrong-password authenticate is processed, fails with the invalid-credentials
message, carries the counter over (incrementing it) and immediately
re-locks the account until `now + 15` minutes. -/
theorem expired_lock_relock (u : User) (wrongPw : String) (now t : Int)
    (hactive : u.is_active = true)
    (hcount : 5 ≤ u.failed_login_attempts)
    (hlock : u.locked_until = some t) (hpast : t ≤ now)
    (hwrong : verify_password wrongPw u.hashed_password = false) :
    (authenticate_user [u] u.email wrongPw now).user = none ∧
    (authenticate_user [u] u.email wrongPw now).error =
      some "Invalid email or password" ∧
    (authenticate_user [u] u.email wrongPw now).users =
      [{ u with failed_login_attempts := u.failed_login_attempts + 1,
                locked_until := some (now + 15 * 60) }] := by
  have hnl : is_locked u now = false := by
    simp [is_locked, hlock]
    omega
  have h5 : 5 ≤ u.failed_login_attempts + 1 := by omega
  simp [authenticate_user, findByEmail, hnl, hactive, hwrong, updateUser, h5]

/-- Witness for C10: `lockedUser` (counter 5, lock expired at 100) hit with
a wrong password at `now = 200`. -/
theorem expired_lock_relock_witness :
    (authenticate_user [lockedUser] lockedUser.email "nope" 200).error =
      some "Invalid email or password" :=
  (expired_lock_relock lockedUser "nope" 200 100 (by decide) (by decide)
    (by decide) (by decide) (by decide)).2.1

/-- A concrete deactivated account (id 2). -/
def inactiveBob : User :=
  ⟨2, "bob@x.com", get_password_hash "Secret1!" 0, false, 0, none, none⟩

/-- A valid refresh token for user id 2, issued at time 0. -/
def bobRefreshTok : Jwt := create_refresh_token 2 0

/-- A token signed with the wrong secret — its verification fails. -/
def forgedTok : Jwt := jwt_encode ⟨2, 604800, "refresh", 0⟩ "not-the-secret"

/-- Counterexample to C6: `refresh_access_token` yields exactly the same
result (`none`, surfaced by the route as one generic 401) for a valid
refresh token whose referenced identity is inactive as for a token that
fails verification — there is no distinct `AccountInactive` error. -/
theorem refresh_inactive_error_not_distinct :
    refresh_access_token [inactiveBob] bobRefreshTok 10 = none ∧
    refresh_access_token [inactiveBob] forgedTok 10 = none := by
  decide

/-- C6 (amended): `refresh_access_token` returns a fresh pair when the
token verifies as type `refresh` and the referenced user exists and is
active; in every failure case — verification failure, missing user, or
inactive user — it uniformly returns `none`, with no distinct
`AccountInactive` error. -/
theorem refresh_access_token_cases (users : List User) (token : Jwt)
    (now : Int) :
    (∀ uid u, verify_token token "refresh" now = some uid →
      findById users uid = some u → u.is_active = true →
      refresh_access_token users token now = some (create_tokens uid now)) ∧
    (verify_token token "refresh" now = none →
      refresh_access_token users token now = none) ∧
    (∀ uid, verify_token token "refresh" now = some uid →
      findById users uid = none →
      refresh_access_token users token now = none) ∧
    (∀ uid u, verify_token token "refresh" now = some uid →
      findById users uid = some u → u.is_active = false →
      refresh_access_token users token now = none) := by
  refine ⟨?_, ?_, ?_, ?_⟩ <;> intros <;> simp_all [refresh_access_token]

/-- A concrete active account (id 4) and its refresh token. -/
def activeCarol : User :=
  ⟨4, "carol@x.com", get_password_hash "Secret1!" 0, true, 0, none, none⟩

def carolRefreshTok : Jwt := create_refresh_token 4 0

/-- Witness for C6 (amended): a valid refresh token for the active user
id 4 yields a fresh token pair. -/
theorem refresh_access_token_cases_witness :
    refresh_access_token [activeCarol] carolRefreshTok 10 =
      some (create_tokens 4 10) :=
  (refresh_access_token_cases [activeCarol] carolRefreshTok 10).1 4
    activeCarol (by decide) (by decide) (by decide)

/-- The outcome of the 5th consecutive wrong-password login against
`aliceUser`, after four failed attempts at times 0–3, performed at time 4. -/
def fifthWrongAttempt : AuthOutcome :=
  authenticate_user
    (authenticate_user
      (authenticate_user
        (authenticate_user
          (authenticate_user [aliceUser] "real@x.com" "wrongpass" 0).users
          "real@x.com" "wrongpass" 1).users
        "real@x.com" "wrongpass" 2).users
      "real@x.com" "wrongpass" 3).users
    "real@x.com" "wrongpass" 4

/-- Counterexample to C1: the 5th consecutive wrong-password attempt does
set the lock (`locked_until = 4 + 15` minutes), but it fails with the
invalid-credentials message, not the account-locked message — the lock
check ran before this call's password failure, so `AccountLocked` starts
only with the 6th attempt. -/
theorem fifth_attempt_error_is_invalid_credentials :
    fifthWrongAttempt.error = some "Invalid email or password" ∧
    fifthWrongAttempt.error ≠
      some "Account is temporarily locked. Please try again later." ∧
    fifthWrongAttempt.users =
      [{ aliceUser with failed_login_attempts := 5, locked_until := some (4 + 15 * 60) }] := by
  decide

/-- C1 (amended): starting from an active user with a zero counter and no
lock, each of the first 4 consecutive wrong-password attempts fails with
the invalid-credentials message and leaves the account unlocked; the 5th
wrong-password attempt also fails with the invalid-credentials message and
sets `locked_until = t5 + 15` minutes; while the lock holds every further
attempt — wrong or correct password — fails with the account-locked
message and changes nothing; once 15 minutes have elapsed a correct-password
attempt succeeds, resetting the counter to 0 and clearing the lock. -/
theorem lockout_progression (u : User) (wrongPw rightPw : String)
    (t1 t2 t3 t4 t5 t6 t7 : Int)
    (hactive : u.is_active = true) (hcount : u.failed_login_attempts = 0)
    (hlock : u.locked_until = none)
    (hwrong : verify_password wrongPw u.hashed_password = false)
    (hright : verify_password rightPw u.hashed_password = true)
    (h6 : t6 < t5 + 15 * 60) (h7 : t5 + 15 * 60 ≤ t7) :
    authenticate_user [u] u.email wrongPw t1 =
      ⟨none, some "Invalid email or password",
        [{ u with failed_login_attempts := 1 }]⟩ ∧
    authenticate_user [{ u with failed_login_attempts := 1 }]
        u.email wrongPw t2 =
      ⟨none, some "Invalid email or password",
        [{ u with failed_login_attempts := 2 }]⟩ ∧
    authenticate_user [{ u with failed_login_attempts := 2 }]
        u.email wrongPw t3 =
      ⟨none, some "Invalid email or password",
        [{ u with failed_login_attempts := 3 }]⟩ ∧
    authenticate_user [{ u with failed_login_attempts := 3 }]
        u.email wrongPw t4 =
      ⟨none, some "Invalid email or password",
        [{ u with failed_login_attempts := 4 }]⟩ ∧
    authenticate_user [{ u with failed_login_attempts := 4 }]
        u.email wrongPw t5 =
      ⟨none, some "Invalid email or password",
        [{ u with failed_login_attempts := 5, locked_until := some (t5 + 15 * 60) }]⟩ ∧
    authenticate_user
        [{ u with failed_login_attempts := 5, locked_until := some (t5 + 15 * 60) }]
        u.email rightPw t6 =
      ⟨none, some "Account is temporarily locked. Please try again later.",
        [{ u with failed_login_attempts := 5, locked_until := some (t5 + 15 * 60) }]⟩ ∧
    authenticate_user
        [{ u with failed_login_attempts := 5, locked_until := some (t5 + 15 * 60) }]
        u.email wrongPw t6 =
      ⟨none, some "Account is temporarily locked. Please try again later.",
        [{ u with failed_login_attempts := 5, locked_until := some (t5 + 15 * 60) }]⟩ ∧
    authenticate_user
        [{ u with failed_login_attempts := 5, locked_until := some (t5 + 15 * 60) }]
        u.email rightPw t7 =
      ⟨some { u with failed_login_attempts := 0, locked_until := none, last_login := some t7 },
        none,
        [{ u with failed_login_attempts := 0, locked_until := none, last_login := some t7 }]⟩ := by
  refine ⟨?_, ?_, ?_, ?_, ?_, ?_, ?_, ?_⟩ <;>
    simp [authenticate_user, findByEmail, is_locked, updateUser,
      hactive, hlock, hcount, hwrong, hright, h6, not_lt.mpr h7] <;>
    omega

/-- Witness for C1 (amended): the `lockout_progression` theorem at
`aliceUser`, wrong password `"wrongpass"`, correct password `"Secret1!"`,
attempt times 0–4, a locked-phase attempt at time 5, and a post-expiry
attempt at time 1000; this instance shows the locked-phase rejection of
the correct password. -/
theorem lockout_progression_witness :
    authenticate_user
        [{ aliceUser with failed_login_attempts := 5, locked_until := some (4 + 15 * 60) }]
        aliceUser.email "Secret1!" 5 =
      ⟨none, some "Account is temporarily locked. Please try again later.",
        [{ aliceUser with failed_login_attempts := 5, locked_until := some (4 + 15 * 60) }]⟩ :=
  (lockout_progression aliceUser "wrongpass" "Secret1!" 0 1 2 3 4 5 1000
    (by decide) (by decide) (by decide) (by decide) (by decide)
    (by decide) (by decide)).2.2.2.2.2.1

end CalTrack
